import Mathlib

/-
  Verification development for the Expense Tracker authentication and
  session-token subsystem.

  Shallow embedding of:
    backend/middleware/authMiddleware.js  (token issuer, blacklist,
      session middleware, refresh endpoint)
    backend/models/User.js                (credential record methods,
      lockout bookkeeping, JSON serialization transform)
    backend/controllers/authController.js (login, logout-all, change
      password flows)

  Modelling conventions:
    - the timeline is Nat, in milliseconds (Date.now());
    - a signed JWT is modelled as a record carrying its payload together
      with the secret it was signed with; jwt.verify(tok, key) succeeds
      iff the recorded secret equals key and the token is unexpired
      (verification fails when now is at or past exp, matching the
      jsonwebtoken library);
    - jti values (crypto.randomUUID) are modelled as Nat, supplied by the
      caller as fresh values;
    - bcrypt hashing is modelled as the identity on strings, so that
      comparePassword(candidate, stored) is string equality;
    - the in-memory tokenBlacklist (a JS Set, insertion ordered) is a
      duplicate-free List with insertion at the tail; the in-memory
      refreshTokens Map is an association list keyed by jti.
-/

namespace ExpenseTracker

/-- Default access-token signing secret (authMiddleware.js,
getCurrentJWTSecret). -/
def accessSecret : String :=
  "3de45819a68860e577acbd9d2b28fa6f5e8672755afd5f43e3ef1ae15b67d809"

/-- Default refresh-token signing secret (authMiddleware.js,
getRefreshSecret). -/
def refreshSecret : String :=
  "7b8c9d0e1f2a3b4c5d6e7f8a9b0c1d2e3f4a5b6c7d8e9f0a1b2c3d4e5f6a7b8c_refresh_token_secret"

/-- The tokenType discriminator carried in every JWT payload. -/
inductive TokenType where
  | access
  | refresh
deriving DecidableEq, Repr

/-- A signed JWT as produced by jwt.sign: the claims of the payload plus
the secret used to sign it (signature verification under a key succeeds
iff the key equals this secret). role is an Option because refresh-token
payloads carry no role claim. exp and iat are in ms on the model
timeline. -/
structure Token where
  id : Nat
  email : String
  role : Option String
  tokenType : TokenType
  jti : Nat
  iat : Nat
  exp : Nat
  secret : String
deriving DecidableEq, Repr

/-- JS `x || d` on an optional string: null/undefined and the empty
string are falsy. -/
def jsOrStr (o : Option String) (d : String) : String :=
  match o with
  | none => d
  | some s => if s = "" then d else s

/-- generateToken (authMiddleware.js): mints an access token with role
`payload.role || 'user'`, fresh jti, one-hour expiry, signed with the
access secret. -/
def generateToken (id : Nat) (email : String) (role : Option String)
    (now jti : Nat) : Token :=
  { id := id
    email := email
    role := some (jsOrStr role "user")
    tokenType := TokenType.access
    jti := jti
    iat := now
    exp := now + 3600000
    secret := accessSecret }

/-- One record of the in-memory refreshTokens Map (authMiddleware.js). -/
structure RefreshInfo where
  userId : Nat
  email : String
  createdAt : Nat
  lastUsed : Nat
deriving DecidableEq, Repr

/-- The process-local mutable state of authMiddleware.js: the
tokenBlacklist Set and the refreshTokens Map (keyed by jti). -/
structure AuthState where
  tokenBlacklist : List Token
  refreshTokens : List (Nat × RefreshInfo)
deriving DecidableEq, Repr

/-- JS Set.add: append at the tail when absent, keep the set unchanged
when present. -/
def setInsert (s : List Token) (t : Token) : List Token :=
  if t ∈ s then s else s ++ [t]

/-- Map.get on the jti-keyed association list. -/
def mapGet (m : List (Nat × RefreshInfo)) (j : Nat) : Option RefreshInfo :=
  (m.find? (fun e => e.1 == j)).map (fun e => e.2)

/-- Map.delete on the jti-keyed association list. -/
def mapDelete (m : List (Nat × RefreshInfo)) (j : Nat) :
    List (Nat × RefreshInfo) :=
  m.filter (fun e => e.1 != j)

/-- Map.set on the jti-keyed association list: replace in place when the
key is present, append otherwise. -/
def mapSet (m : List (Nat × RefreshInfo)) (j : Nat) (v : RefreshInfo) :
    List (Nat × RefreshInfo) :=
  if (m.find? (fun e => e.1 == j)).isSome then
    m.map (fun e => if e.1 == j then (j, v) else e)
  else
    m ++ [(j, v)]

/-- generateRefreshToken (authMiddleware.js): mints a refresh token
(no role claim, seven-day expiry, refresh secret) and records its jti in
the in-memory refreshTokens Map. -/
def generateRefreshToken (st : AuthState) (id : Nat) (email : String)
    (now jti : Nat) : Token × AuthState :=
  let tok : Token :=
    { id := id
      email := email
      role := none
      tokenType := TokenType.refresh
      jti := jti
      iat := now
      exp := now + 604800000
      secret := refreshSecret }
  (tok,
   { st with
       refreshTokens :=
         mapSet st.refreshTokens jti
           { userId := id, email := email, createdAt := now, lastUsed := now } })

/-- The blacklist-set update inside blacklistToken (authMiddleware.js):
add the token, then, when the Set has grown past 10000 entries, keep
only the last 5000 (Array.from(...).slice(-5000)). -/
def blacklistInsert (bl : List Token) (t : Token) : List Token :=
  let b := setInsert bl t
  if b.length > 10000 then b.drop (b.length - 5000) else b

/-- blacklistToken (authMiddleware.js): a null token is a no-op;
otherwise add the token to the blacklist Set, delete its jti from the
in-memory refreshTokens Map (jwt.decode always succeeds on model
tokens), evicting the oldest half of the Set past the high-water
mark. -/
def blacklistToken (st : AuthState) (tok : Option Token) : AuthState :=
  match tok with
  | none => st
  | some t =>
    { tokenBlacklist := blacklistInsert st.tokenBlacklist t
      refreshTokens := mapDelete st.refreshTokens t.jti }

/-- isTokenBlacklisted (authMiddleware.js). -/
def isTokenBlacklisted (st : AuthState) (t : Token) : Bool :=
  st.tokenBlacklist.contains t

/-- One entry of the persisted refreshTokens array of a user document
(User.js schema; isRevoked defaults to false). -/
structure RefreshTokenEntry where
  tokenHash : String
  jti : Nat
  expiresAt : Nat
  isRevoked : Bool
deriving DecidableEq, Repr

/-- The persisted user credential record (User.js schema), restricted to
the fields the authentication subsystem reads or writes. password holds
the stored hash (bcrypt modelled as identity). lockUntil is null or a
ms timestamp. -/
structure UserDoc where
  _id : Nat
  fullName : String
  email : String
  password : String
  profileImageUrl : String
  status : String
  role : String
  loginAttempts : Nat
  lockUntil : Option Nat
  maxLoginAttempts : Nat
  lockTime : Nat
  refreshTokens : List RefreshTokenEntry
  passwordHistory : List String
  twoFactorSecret : String
  backupCodes : List String
  resetPasswordToken : String
  emailVerificationToken : String
deriving DecidableEq, Repr

/-- Schema default for maxLoginAttempts (User.js): 5 when the
environment variable is absent. -/
def defaultMaxLoginAttempts : Nat := 5

/-- Schema default for lockTime (User.js): 30 minutes in ms when the
environment variable is absent. -/
def defaultLockTime : Nat := 30 * 60 * 1000

/-- The isLocked virtual (User.js): a non-null lockUntil strictly in the
future. -/
def isLocked (u : UserDoc) (now : Nat) : Bool :=
  match u.lockUntil with
  | none => false
  | some l => now < l

/-- The attemptsRemaining virtual (User.js): max(0, maxLoginAttempts -
loginAttempts); Nat subtraction gives exactly that. -/
def attemptsRemaining (u : UserDoc) : Nat :=
  u.maxLoginAttempts - u.loginAttempts

/-- incLoginAttempts (User.js): when a previous lock has already expired
(lockUntil non-null and strictly before now), restart with
loginAttempts = 1 and the lock cleared; otherwise increment the counter
by one, and when the incremented count reaches maxLoginAttempts while
the account is not currently locked, set lockUntil = now + lockTime. -/
def incLoginAttempts (u : UserDoc) (now : Nat) : UserDoc :=
  match u.lockUntil with
  | some l =>
    if l < now then
      { u with lockUntil := none, loginAttempts := 1 }
    else
      let u2 := { u with loginAttempts := u.loginAttempts + 1 }
      if u.loginAttempts + 1 ≥ u.maxLoginAttempts && !(isLocked u now) then
        { u2 with lockUntil := some (now + u.lockTime) }
      else u2
  | none =>
    let u2 := { u with loginAttempts := u.loginAttempts + 1 }
    if u.loginAttempts + 1 ≥ u.maxLoginAttempts && !(isLocked u now) then
      { u2 with lockUntil := some (now + u.lockTime) }
    else u2

/-- resetLoginAttempts (User.js): unset both counter and lock (the
schema defaults 0 and null apply on the next read). -/
def resetLoginAttempts (u : UserDoc) : UserDoc :=
  { u with loginAttempts := 0, lockUntil := none }

/-- addRefreshToken (User.js): push a descriptor (isRevoked defaulting
to false) and keep only the last five. -/
def addRefreshToken (u : UserDoc) (tokenHash : String) (jti expiresAt : Nat) :
    UserDoc :=
  let l := u.refreshTokens ++
    [{ tokenHash := tokenHash, jti := jti, expiresAt := expiresAt,
       isRevoked := false }]
  { u with refreshTokens := if l.length > 5 then l.drop (l.length - 5) else l }

/-- revokeRefreshToken (User.js): mark the first descriptor with the
given jti as revoked. -/
def revokeRefreshToken (u : UserDoc) (j : Nat) : UserDoc :=
  let rec go : List RefreshTokenEntry → List RefreshTokenEntry
    | [] => []
    | e :: es =>
      if e.jti == j then { e with isRevoked := true } :: es else e :: go es
  { u with refreshTokens := go u.refreshTokens }

/-- revokeAllRefreshTokens (User.js): mark every descriptor revoked. -/
def revokeAllRefreshTokens (u : UserDoc) : UserDoc :=
  { u with
      refreshTokens := u.refreshTokens.map (fun e => { e with isRevoked := true }) }

/-- comparePassword (User.js): bcrypt.compare, modelled as string
equality against the stored hash. -/
def comparePassword (u : UserDoc) (candidate : String) : Bool :=
  candidate == u.password

/-- The database of user documents, keyed by _id. -/
def findById (db : List UserDoc) (id : Nat) : Option UserDoc :=
  db.find? (fun u => u._id == id)

/-- JS String.toLowerCase, as an executable map over the characters
(String.toLower itself does not reduce in the kernel). -/
def strToLower (s : String) : String :=
  String.mk (s.data.map Char.toLower)

/-- The login query (authController.js loginUser): findOne on the
lowercased email with status not equal to deleted. -/
def findLoginUser (db : List UserDoc) (email : String) : Option UserDoc :=
  db.find? (fun u => u.email == strToLower email && u.status != "deleted")

/-- Replace the document with the same _id (an update-by-id write). -/
def updateUser (db : List UserDoc) (u : UserDoc) : List UserDoc :=
  db.map (fun v => if v._id == u._id then u else v)

/-- findByRefreshToken (User.js): a static that looks a user up by a
persisted refresh-token descriptor that is present, unrevoked and
unexpired, on a non-deleted account. Defined in the source but never
called by the refresh endpoint. -/
def findByRefreshToken (db : List UserDoc) (j now : Nat) : Option UserDoc :=
  db.find? (fun u =>
    u.refreshTokens.any (fun e =>
      e.jti == j && e.isRevoked == false && now < e.expiresAt)
    && u.status != "deleted")

/-- The identity annotation attached to an admitted request
(authMiddleware.js, req.user). -/
structure ReqUser where
  id : Nat
  email : String
  role : String
  tokenId : Nat
  fullName : String
  profileImageUrl : String
deriving DecidableEq, Repr

/-- Outcome of authenticateToken, one constructor per exit of the
middleware. -/
inductive AuthResult where
  | missingToken
  | revoked
  | invalidSignature
  | expired
  | invalidType
  | userMissing
  | deactivated
  | locked (minutesRemaining : Nat)
  | admitted (u : ReqUser)
deriving DecidableEq, Repr

/-- HTTP status sent for each authenticateToken outcome. -/
def authHttpStatus : AuthResult → Nat
  | AuthResult.missingToken => 401
  | AuthResult.revoked => 401
  | AuthResult.invalidSignature => 401
  | AuthResult.expired => 401
  | AuthResult.invalidType => 401
  | AuthResult.userMissing => 401
  | AuthResult.deactivated => 401
  | AuthResult.locked _ => 423
  | AuthResult.admitted _ => 200

/-- Math.ceil((l - now) / 60000) on Nat. -/
def ceilMinutes (l now : Nat) : Nat :=
  (l - now + 59999) / 60000

/-- authenticateToken (authMiddleware.js): the per-request session
middleware. Checks in source order: token present, not blacklisted,
signature verifies, not expired, tokenType is access, subject exists
(blacklisting the token when it does not), account active
(user.status truthy and different from active rejects), account not
locked. Returns the outcome together with the possibly updated
process-local state. -/
def authenticateToken (st : AuthState) (db : List UserDoc)
    (tok : Option Token) (now : Nat) : AuthResult × AuthState :=
  match tok with
  | none => (AuthResult.missingToken, st)
  | some t =>
    if isTokenBlacklisted st t then (AuthResult.revoked, st)
    else if t.secret != accessSecret then (AuthResult.invalidSignature, st)
    else if t.exp ≤ now then (AuthResult.expired, st)
    else if t.tokenType != TokenType.access then (AuthResult.invalidType, st)
    else
      match findById db t.id with
      | none => (AuthResult.userMissing, blacklistToken st (some t))
      | some u =>
        if u.status != "" && u.status != "active" then
          (AuthResult.deactivated, st)
        else
          match u.lockUntil with
          | some l =>
            if now < l then (AuthResult.locked (ceilMinutes l now), st)
            else
              (AuthResult.admitted
                { id := t.id, email := t.email,
                  role := jsOrStr t.role "user", tokenId := t.jti,
                  fullName := u.fullName,
                  profileImageUrl := u.profileImageUrl }, st)
          | none =>
            (AuthResult.admitted
              { id := t.id, email := t.email,
                role := jsOrStr t.role "user", tokenId := t.jti,
                fullName := u.fullName,
                profileImageUrl := u.profileImageUrl }, st)

/-- Outcome of the refresh-token endpoint handler. -/
inductive RefreshResult where
  | missing
  | revokedTok
  | invalidSignature
  | expired
  | wrongType
  | notFound
  | userGone
  | minted (access refresh : Token)
deriving DecidableEq, Repr

/-- HTTP status sent for each refreshAccessToken outcome (the catch
block maps signature and expiry errors to 401 as well). -/
def refreshHttpStatus : RefreshResult → Nat
  | RefreshResult.minted _ _ => 200
  | _ => 401

/-- Whether a refresh outcome minted a new pair. -/
def isMintedR : RefreshResult → Bool
  | RefreshResult.minted _ _ => true
  | _ => false

/-- refreshAccessToken (authMiddleware.js): the refresh-token endpoint
handler. Checks in source order: token present, not blacklisted,
signature verifies under the refresh secret, not expired, tokenType is
refresh, jti present in the in-memory refreshTokens Map, subject exists
and active (blacklisting the token and deleting the jti otherwise);
then mints a new access and refresh pair, blacklists the old refresh
token, deletes its jti from the Map, and touches lastUsed on the new
entry. The persisted per-user refreshTokens list is never consulted.
newJtiA and newJtiR are the fresh jti values for the minted pair. -/
def refreshAccessToken (st : AuthState) (db : List UserDoc)
    (tok : Option Token) (now newJtiA newJtiR : Nat) :
    RefreshResult × AuthState :=
  match tok with
  | none => (RefreshResult.missing, st)
  | some t =>
    if isTokenBlacklisted st t then (RefreshResult.revokedTok, st)
    else if t.secret != refreshSecret then (RefreshResult.invalidSignature, st)
    else if t.exp ≤ now then (RefreshResult.expired, st)
    else if t.tokenType != TokenType.refresh then (RefreshResult.wrongType, st)
    else if (mapGet st.refreshTokens t.jti).isNone then
      (RefreshResult.notFound, st)
    else
      match findById db t.id with
      | none =>
        let st1 := blacklistToken st (some t)
        (RefreshResult.userGone,
         { st1 with refreshTokens := mapDelete st1.refreshTokens t.jti })
      | some u =>
        if u.status != "" && u.status != "active" then
          let st1 := blacklistToken st (some t)
          (RefreshResult.userGone,
           { st1 with refreshTokens := mapDelete st1.refreshTokens t.jti })
        else
          let atk := generateToken u._id u.email (some u.role) now newJtiA
          let pr := generateRefreshToken st u._id u.email now newJtiR
          let st2 := blacklistToken pr.2 (some t)
          let st3 :=
            { st2 with refreshTokens := mapDelete st2.refreshTokens t.jti }
          let st4 :=
            match mapGet st3.refreshTokens newJtiR with
            | none => st3
            | some info =>
              { st3 with
                  refreshTokens :=
                    mapSet st3.refreshTokens newJtiR
                      { info with lastUsed := now } }
          (RefreshResult.minted atk pr.1, st4)

/-- Outcome of the login endpoint (authController.js loginUser). -/
inductive LoginResult where
  | invalidCredentials
  | accountInactive
  | lockedOut (minutesRemaining : Nat)
  | wrongPassword (remaining : Nat)
  | success (access refresh : Token)
deriving DecidableEq, Repr

/-- HTTP status sent for each loginUser outcome. -/
def loginHttpStatus : LoginResult → Nat
  | LoginResult.invalidCredentials => 401
  | LoginResult.accountInactive => 403
  | LoginResult.lockedOut _ => 423
  | LoginResult.wrongPassword _ => 401
  | LoginResult.success _ _ => 200

/-- loginUser (authController.js): find the user by lowercased email on
a non-deleted account; reject with 403 when the status is not active;
reject with 423 when the account is locked; on a wrong password record
the failure through incLoginAttempts and reject with 401 (the remaining
count in the message is computed on the stale in-memory document, before
the increment); on success reset the attempts, mint an access and
refresh pair and append the refresh descriptor to the persisted list.
Login-history bookkeeping (recordLogin, updateLastActive) touches no
state this subsystem reads and is not modelled. jtiA and jtiR are the
fresh jti values of the minted pair. -/
def loginUser (db : List UserDoc) (st : AuthState)
    (email password : String) (now jtiA jtiR : Nat) :
    LoginResult × List UserDoc × AuthState :=
  match findLoginUser db email with
  | none => (LoginResult.invalidCredentials, db, st)
  | some u =>
    if u.status != "active" then (LoginResult.accountInactive, db, st)
    else if isLocked u now then
      (LoginResult.lockedOut (ceilMinutes (u.lockUntil.getD 0) now), db, st)
    else if !(comparePassword u password) then
      let u2 := incLoginAttempts u now
      (LoginResult.wrongPassword (attemptsRemaining u), updateUser db u2, st)
    else
      let u1 := resetLoginAttempts u
      let atk := generateToken u._id u.email (some u.role) now jtiA
      let pr := generateRefreshToken st u._id u.email now jtiR
      let u2 := addRefreshToken u1 "sha256-of-refresh-token" jtiR pr.1.exp
      (LoginResult.success atk pr.1, updateUser db u2, pr.2)

/-- logoutAllDevices (authController.js): look the user up by id and
mark every persisted refresh-token descriptor revoked. Returns the HTTP
status and the updated database; the process-local AuthState
(blacklist and in-memory refreshTokens Map) is not touched. -/
def logoutAllDevices (db : List UserDoc) (userId : Nat) :
    Nat × List UserDoc :=
  match findById db userId with
  | none => (404, db)
  | some u => (200, updateUser db (revokeAllRefreshTokens u))

/-- changePassword (authController.js): verify the current password,
refuse a password from the history, otherwise set the new password
(hashing modelled as identity; the pre-save hook pushes the old hash to
the history, capped at five) and revoke all persisted refresh-token
descriptors. The process-local AuthState is not touched. -/
def changePassword (db : List UserDoc) (userId : Nat)
    (currentPassword newPassword : String) : Nat × List UserDoc :=
  match findById db userId with
  | none => (404, db)
  | some u =>
    if !(comparePassword u currentPassword) then (400, db)
    else if u.passwordHistory.contains newPassword then (400, db)
    else
      let hist := u.passwordHistory ++ [u.password]
      let hist := if hist.length > 5 then hist.drop (hist.length - 5) else hist
      let u1 :=
        { u with password := newPassword, passwordHistory := hist }
      (200, updateUser db (revokeAllRefreshTokens u1))

/-- Render the persisted refresh-token descriptors for serialization
(the value content is irrelevant to the claims; keys are what matter). -/
def renderEntries (l : List RefreshTokenEntry) : String :=
  String.intercalate "," (l.map (fun e => e.tokenHash))

/-- The raw key-value serialization of a user document before the
toJSON transform runs: every modelled schema field, plus the __v
version key mongoose adds. -/
def serializeUser (u : UserDoc) : List (String × String) :=
  [("_id", toString u._id),
   ("fullName", u.fullName),
   ("email", u.email),
   ("password", u.password),
   ("profileImageUrl", u.profileImageUrl),
   ("status", u.status),
   ("role", u.role),
   ("loginAttempts", toString u.loginAttempts),
   ("lockUntil", toString (u.lockUntil.getD 0)),
   ("maxLoginAttempts", toString u.maxLoginAttempts),
   ("lockTime", toString u.lockTime),
   ("refreshTokens", renderEntries u.refreshTokens),
   ("passwordHistory", String.intercalate "," u.passwordHistory),
   ("twoFactorSecret", u.twoFactorSecret),
   ("backupCodes", String.intercalate "," u.backupCodes),
   ("resetPasswordToken", u.resetPasswordToken),
   ("emailVerificationToken", u.emailVerificationToken),
   ("__v", "0")]

/-- The keys the toJSON transform deletes (User.js schema options),
together with _id which is renamed to id. -/
def toJSONDeletedKeys : List String :=
  ["password", "refreshTokens", "twoFactorSecret", "resetPasswordToken",
   "emailVerificationToken", "passwordHistory", "backupCodes", "__v", "_id"]

/-- The toJSON transform (User.js schema options): delete the sensitive
keys and the version key, and expose _id under the key id. -/
def toJSONTransform (ret : List (String × String)) : List (String × String) :=
  let idVal := ((ret.find? (fun kv => kv.1 == "_id")).map (fun kv => kv.2)).getD ""
  (ret.filter (fun kv => !(toJSONDeletedKeys.contains kv.1))) ++ [("id", idVal)]

/-- user.toJSON(): serialize then apply the schema transform. -/
def userToJSON (u : UserDoc) : List (String × String) :=
  toJSONTransform (serializeUser u)

/-- The keys excluded by the getUserInfo query projection
(authController.js: select minus password, refreshTokens,
twoFactorSecret, resetPasswordToken, emailVerificationToken,
passwordHistory). -/
def getUserSelectExcluded : List String :=
  ["password", "refreshTokens", "twoFactorSecret", "resetPasswordToken",
   "emailVerificationToken", "passwordHistory"]

/-- The user object of the getUser success response: the projected
document serialized through toJSON. -/
def getUserResponseUser (u : UserDoc) : List (String × String) :=
  toJSONTransform
    ((serializeUser u).filter
      (fun kv => !(getUserSelectExcluded.contains kv.1)))

/-- The user object of the login success response
(authController.js loginUser): user.toJSON() with loginAttempts and
lockUntil additionally deleted. -/
def loginResponseUser (u : UserDoc) : List (String × String) :=
  (userToJSON u).filter
    (fun kv => kv.1 != "loginAttempts" && kv.1 != "lockUntil")

/-- The keys of the hand-built user object of the registration success
response (authController.js registerUser). -/
def registrationResponseUserKeys : List String :=
  ["id", "fullName", "email", "profileImageUrl", "role", "status",
   "emailVerified", "createdAt"]

/-- The sensitive keys named by the serialization claim. -/
def sensitiveKeys : List String :=
  ["password", "refreshTokens", "twoFactorSecret", "passwordHistory",
   "backupCodes", "resetPasswordToken", "emailVerificationToken"]

/-- Whether a previously set lock has already expired (the guard of the
first branch of incLoginAttempts). -/
def lockExpired (u : UserDoc) (now : Nat) : Bool :=
  match u.lockUntil with
  | none => false
  | some l => l < now

/-- Whether a login outcome minted a token pair. -/
def isMintedL : LoginResult → Bool
  | LoginResult.success _ _ => true
  | _ => false

/-- The database after one login attempt. -/
def loginStepDb (st : AuthState) (email pw : String) (t ja jr : Nat)
    (db : List UserDoc) : List UserDoc :=
  (loginUser db st email pw t ja jr).2.1

section Lemmas

variable {α : Type}

/-- An element appended at the tail survives dropping at most the length
of the original list. -/
theorem mem_drop_append_last (l : List α) (a : α) (k : Nat)
    (h : k ≤ l.length) : a ∈ (l ++ [a]).drop k := by
  induction l generalizing k with
  | nil =>
    have hk : k = 0 := by simpa using h
    subst hk
    simp
  | cons b l ih =>
    cases k with
    | zero => simp
    | succ k =>
      simp only [List.cons_append, List.drop_succ_cons]
      exact ih k (by simpa using h)

/-- A token not yet in the blacklist set is in it right after
blacklistInsert, even when the call evicts the oldest half. -/
theorem mem_blacklistInsert (bl : List Token) (t : Token)
    (h : t ∉ bl) : t ∈ blacklistInsert bl t := by
  have hins : setInsert bl t = bl ++ [t] := by
    simp [setInsert, h]
  show t ∈ (let b := setInsert bl t;
            if b.length > 10000 then b.drop (b.length - 5000) else b)
  rw [hins]
  simp only [List.length_append, List.length_singleton]
  split
  · exact mem_drop_append_last _ _ _ (by omega)
  · simp

end Lemmas

/-- C9: after blacklistToken inserts a token, the blacklist holds at
most 10000 entries: when the insertion pushes the set past 10000 the
call retains only the most recently inserted 5000 entries (a suffix of
the set of length 5000); otherwise the set is kept whole; a null token
inserts nothing and leaves the state unchanged. -/
theorem blacklistToken_bounded (st : AuthState) (t : Token) :
    (blacklistToken st (some t)).tokenBlacklist.length ≤ 10000 ∧
    (blacklistToken st (some t)).tokenBlacklist.length =
      (if (setInsert st.tokenBlacklist t).length > 10000 then 5000
       else (setInsert st.tokenBlacklist t).length) ∧
    (blacklistToken st (some t)).tokenBlacklist <:+
      setInsert st.tokenBlacklist t ∧
    blacklistToken st none = st := by
  have hbl : (blacklistToken st (some t)).tokenBlacklist =
      (if (setInsert st.tokenBlacklist t).length > 10000 then
        (setInsert st.tokenBlacklist t).drop
          ((setInsert st.tokenBlacklist t).length - 5000)
       else setInsert st.tokenBlacklist t) := rfl
  refine ⟨?_, ?_, ?_, rfl⟩
  · rw [hbl]
    split
    · simp only [List.length_drop]
      omega
    · omega
  · rw [hbl]
    split
    · simp only [List.length_drop]
      omega
    · rfl
  · rw [hbl]
    split
    · exact List.drop_suffix _ _
    · exact List.suffix_refl _

/-- C10: the toJSON transform of a user document, the getUser response
user object and the login response user object omit the password hash,
the refresh-token descriptors, the two-factor secret, the password
history, the backup codes and the reset and verification tokens; the
login response additionally omits loginAttempts and lockUntil; and the
hand-built registration response user object carries none of the
sensitive keys either. -/
theorem responses_omit_sensitive_fields (u : UserDoc) :
    (sensitiveKeys.all
      (fun k => !(((userToJSON u).map Prod.fst).contains k))) = true ∧
    (sensitiveKeys.all
      (fun k => !(((getUserResponseUser u).map Prod.fst).contains k))) = true ∧
    (sensitiveKeys.all
      (fun k => !(((loginResponseUser u).map Prod.fst).contains k))) = true ∧
    ((loginResponseUser u).map Prod.fst).contains "loginAttempts" = false ∧
    ((loginResponseUser u).map Prod.fst).contains "lockUntil" = false ∧
    (sensitiveKeys.all
      (fun k => !(registrationResponseUserKeys.contains k))) = true := by
  refine ⟨rfl, rfl, rfl, rfl, rfl, rfl⟩

/-- A sample user document used to instantiate witnesses. -/
def sampleUser : UserDoc :=
  { _id := 1
    fullName := "Alice Ada"
    email := "alice@example.com"
    password := "Passw0rdHash"
    profileImageUrl := ""
    status := "active"
    role := "user"
    loginAttempts := 0
    lockUntil := none
    maxLoginAttempts := 5
    lockTime := 30 * 60 * 1000
    refreshTokens := []
    passwordHistory := []
    twoFactorSecret := ""
    backupCodes := []
    resetPasswordToken := ""
    emailVerificationToken := "" }

/-- C6: recordFailure semantics of incLoginAttempts. When the stored
lock has already expired the counter restarts at 1 with the lock
cleared; otherwise the counter increments by one, and the lock is set to
now + lockTime exactly when the incremented count reaches the configured
maximum while the account is not currently locked; the schema defaults
are 5 attempts and a 30-minute lock. -/
theorem incLoginAttempts_spec (u : UserDoc) (now : Nat) :
    (lockExpired u now = true →
      incLoginAttempts u now = { u with lockUntil := none, loginAttempts := 1 }) ∧
    (lockExpired u now = false →
      (incLoginAttempts u now).loginAttempts = u.loginAttempts + 1 ∧
      (u.loginAttempts + 1 ≥ u.maxLoginAttempts ∧ isLocked u now = false →
        (incLoginAttempts u now).lockUntil = some (now + u.lockTime)) ∧
      (¬(u.loginAttempts + 1 ≥ u.maxLoginAttempts ∧ isLocked u now = false) →
        (incLoginAttempts u now).lockUntil = u.lockUntil)) ∧
    defaultMaxLoginAttempts = 5 ∧ defaultLockTime = 30 * 60 * 1000 := by
  refine ⟨?_, ?_, rfl, rfl⟩
  · intro hexp
    cases hl : u.lockUntil with
    | none => simp [lockExpired, hl] at hexp
    | some l =>
      have hlt : l < now := by simpa [lockExpired, hl] using hexp
      simp [incLoginAttempts, hl, hlt]
  · intro hexp
    cases hl : u.lockUntil with
    | none =>
      simp only [incLoginAttempts, hl]
      constructor
      · split <;> rfl
      · constructor
        · intro hset
          have hge : u.loginAttempts + 1 ≥ u.maxLoginAttempts := hset.1
          have hnl : isLocked u now = false := hset.2
          simp [hge, hnl]
        · intro hneg
          split
          · rename_i hcond
            exfalso
            apply hneg
            simp only [Bool.and_eq_true, decide_eq_true_eq, Bool.not_eq_eq_eq_not,
              Bool.not_true] at hcond
            exact ⟨hcond.1, by simpa using hcond.2⟩
          · rfl
    | some l =>
      have hlt : ¬(l < now) := by
        intro hl2
        simp [lockExpired, hl, hl2] at hexp
      simp only [incLoginAttempts, hl, if_neg hlt]
      constructor
      · split <;> rfl
      · constructor
        · intro hset
          have hge : u.loginAttempts + 1 ≥ u.maxLoginAttempts := hset.1
          have hnl : isLocked u now = false := hset.2
          simp [hge, hnl]
        · intro hneg
          split
          · rename_i hcond
            exfalso
            apply hneg
            simp only [Bool.and_eq_true, decide_eq_true_eq, Bool.not_eq_eq_eq_not,
              Bool.not_true] at hcond
            exact ⟨hcond.1, by simpa using hcond.2⟩
          · rfl

/-- Witness for incLoginAttempts_spec: a user whose lock expired at 5
restarts at one failure at time 10; a fresh user at the default maximum
minus one gets locked on the fifth failure. -/
theorem incLoginAttempts_spec_witness :
    incLoginAttempts { sampleUser with lockUntil := some 5 } 10 =
      { sampleUser with lockUntil := none, loginAttempts := 1 } ∧
    (incLoginAttempts { sampleUser with loginAttempts := 4 } 100).lockUntil =
      some (100 + sampleUser.lockTime) := by
  constructor
  · exact (incLoginAttempts_spec { sampleUser with lockUntil := some 5 } 10).1
      (by decide)
  · exact ((incLoginAttempts_spec { sampleUser with loginAttempts := 4 } 100).2.1
      (by decide)).2.1 (by decide)

/-- An access token that expired at time 1000567 on the model
timeline. -/
def expiredAccessTok : Token :=
  { id := 1
    email := "alice@example.com"
    role := some "user"
    tokenType := TokenType.access
    jti := 41
    iat := 1000
    exp := 1000567
    secret := accessSecret }

/-- A process state in which expiredAccessTok is blacklisted. -/
def stExpiredBlacklisted : AuthState :=
  { tokenBlacklist := [expiredAccessTok], refreshTokens := [] }

/-- C7 counterexample: a token that is both past its expiry and present
in the blacklist is rejected by the blacklist check, not the expiry
check — the middleware checks the blacklist before verifying the
token, so the rejection is the revoked branch, not the expired one. -/
theorem blacklisted_expired_token_rejected_as_revoked :
    expiredAccessTok.exp ≤ 2000000 ∧
    isTokenBlacklisted stExpiredBlacklisted expiredAccessTok = true ∧
    (authenticateToken stExpiredBlacklisted [sampleUser]
        (some expiredAccessTok) 2000000).1 = AuthResult.revoked ∧
    (authenticateToken stExpiredBlacklisted [sampleUser]
        (some expiredAccessTok) 2000000).1 ≠ AuthResult.expired := by
  refine ⟨by decide, by decide, by decide, by decide⟩

/-- C7 amended: when a presented token is both blacklisted and past its
natural expiry, the blacklist check fires first and the request is
rejected as revoked; the overlap is harmless because the revoked branch
and the expired branch both answer 401. -/
theorem blacklist_precedes_expiry (st : AuthState) (db : List UserDoc)
    (t : Token) (now : Nat)
    (hb : isTokenBlacklisted st t = true)
    (he : t.exp ≤ now) :
    (authenticateToken st db (some t) now).1 = AuthResult.revoked ∧
    authHttpStatus (authenticateToken st db (some t) now).1 = 401 ∧
    authHttpStatus AuthResult.expired = 401 := by
  have h : (authenticateToken st db (some t) now).1 = AuthResult.revoked := by
    simp [authenticateToken, hb]
  exact ⟨h, by rw [h]; rfl, rfl⟩

/-- Witness for blacklist_precedes_expiry at the concrete blacklisted,
expired token. -/
theorem blacklist_precedes_expiry_witness :
    (authenticateToken stExpiredBlacklisted [sampleUser]
        (some expiredAccessTok) 2000000).1 = AuthResult.revoked := by
  exact (blacklist_precedes_expiry stExpiredBlacklisted [sampleUser]
    expiredAccessTok 2000000 (by decide) (by decide)).1

/-- C5: the session middleware checks every request in the fixed order
missing-token, blacklisted, signature, expiry, token type, subject
exists, account active, account not locked; each implication below
assumes only the negations of the earlier checks, so a failing check
short-circuits regardless of the later ones; every failure answers 401
except the locked check which answers 423; and the missing-subject
failure additionally blacklists the presented token (every other
failure leaves the process state untouched). -/
theorem authenticateToken_pipeline (st : AuthState) (db : List UserDoc)
    (now : Nat) :
    ((authenticateToken st db none now).1 = AuthResult.missingToken ∧
     authHttpStatus AuthResult.missingToken = 401) ∧
    (∀ t : Token,
      (isTokenBlacklisted st t = true →
        authenticateToken st db (some t) now = (AuthResult.revoked, st)) ∧
      (isTokenBlacklisted st t = false → t.secret ≠ accessSecret →
        authenticateToken st db (some t) now =
          (AuthResult.invalidSignature, st)) ∧
      (isTokenBlacklisted st t = false → t.secret = accessSecret →
        t.exp ≤ now →
        authenticateToken st db (some t) now = (AuthResult.expired, st)) ∧
      (isTokenBlacklisted st t = false → t.secret = accessSecret →
        now < t.exp → t.tokenType ≠ TokenType.access →
        authenticateToken st db (some t) now = (AuthResult.invalidType, st)) ∧
      (isTokenBlacklisted st t = false → t.secret = accessSecret →
        now < t.exp → t.tokenType = TokenType.access →
        findById db t.id = none →
        authenticateToken st db (some t) now =
          (AuthResult.userMissing, blacklistToken st (some t))) ∧
      (∀ u, isTokenBlacklisted st t = false → t.secret = accessSecret →
        now < t.exp → t.tokenType = TokenType.access →
        findById db t.id = some u → u.status ≠ "" → u.status ≠ "active" →
        authenticateToken st db (some t) now = (AuthResult.deactivated, st)) ∧
      (∀ u l, isTokenBlacklisted st t = false → t.secret = accessSecret →
        now < t.exp → t.tokenType = TokenType.access →
        findById db t.id = some u → (u.status = "" ∨ u.status = "active") →
        u.lockUntil = some l → now < l →
        authenticateToken st db (some t) now =
          (AuthResult.locked (ceilMinutes l now), st))) ∧
    authHttpStatus AuthResult.revoked = 401 ∧
    authHttpStatus AuthResult.invalidSignature = 401 ∧
    authHttpStatus AuthResult.expired = 401 ∧
    authHttpStatus AuthResult.invalidType = 401 ∧
    authHttpStatus AuthResult.userMissing = 401 ∧
    authHttpStatus AuthResult.deactivated = 401 ∧
    (∀ m, authHttpStatus (AuthResult.locked m) = 423) := by
  refine ⟨⟨rfl, rfl⟩, ?_, rfl, rfl, rfl, rfl, rfl, rfl, fun m => rfl⟩
  intro t
  refine ⟨?_, ?_, ?_, ?_, ?_, ?_, ?_⟩
  · intro hb
    simp [authenticateToken, hb]
  · intro hb hsec
    simp [authenticateToken, hb, hsec]
  · intro hb hsec hexp
    simp [authenticateToken, hb, hsec, hexp]
  · intro hb hsec hexp hty
    simp [authenticateToken, hb, hsec, Nat.not_le.mpr hexp, hty]
  · intro hb hsec hexp hty hfind
    simp [authenticateToken, hb, hsec, Nat.not_le.mpr hexp, hty, hfind]
  · intro u hb hsec hexp hty hfind hs1 hs2
    simp [authenticateToken, hb, hsec, Nat.not_le.mpr hexp, hty, hfind,
      hs1, hs2]
  · intro u l hb hsec hexp hty hfind hs hl hnl
    rcases hs with hs | hs <;>
      simp [authenticateToken, hb, hsec, Nat.not_le.mpr hexp, hty, hfind,
        hs, hl, hnl]

/-- A process state whose blacklist and refresh map are empty. -/
def emptyState : AuthState := { tokenBlacklist := [], refreshTokens := [] }

/-- A currently valid access token for sampleUser, issued at 0 with
jti 7. -/
def sampleAccessTok : Token := generateToken 1 "alice@example.com" (some "user") 0 7

/-- Witness for authenticateToken_pipeline: a locked sampleUser (locked
until 1800000) rejects a valid access token at time 0 with the locked
outcome, thirty minutes remaining, and status 423. -/
theorem authenticateToken_pipeline_witness :
    authenticateToken emptyState [{ sampleUser with lockUntil := some 1800000 }]
        (some sampleAccessTok) 0 =
      (AuthResult.locked 30, emptyState) ∧
    authHttpStatus (AuthResult.locked 30) = 423 := by
  have h := (authenticateToken_pipeline emptyState
    [{ sampleUser with lockUntil := some 1800000 }] 0).2.1 sampleAccessTok
  have h2 := h.2.2.2.2.2.2 { sampleUser with lockUntil := some 1800000 } 1800000
    (by decide) (by decide) (by decide) (by decide) (by decide)
    (Or.inr (by decide)) (by decide) (by decide)
  refine ⟨by simpa using h2, rfl⟩

/-- C8: round trip. An access token minted by generateToken for an
identity (id, email, role) and immediately checked by the session
middleware — unexpired, not blacklisted, subject existing, active and
not locked — annotates the request with exactly the same subject id,
email and role that minted it (role non-empty, as every schema role
is). -/
theorem mint_verify_round_trip (st : AuthState) (db : List UserDoc)
    (id jti now now2 : Nat) (email role : String) (u : UserDoc)
    (hrole : role ≠ "")
    (hbl : isTokenBlacklisted st (generateToken id email (some role) now jti)
      = false)
    (hexp : now2 < (generateToken id email (some role) now jti).exp)
    (hfind : findById db id = some u)
    (hstatus : u.status = "active")
    (hlock : isLocked u now2 = false) :
    (authenticateToken st db (some (generateToken id email (some role) now jti))
        now2).1 =
      AuthResult.admitted
        { id := id, email := email, role := role, tokenId := jti,
          fullName := u.fullName, profileImageUrl := u.profileImageUrl } := by
  have htok : (generateToken id email (some role) now jti).secret
      = accessSecret := rfl
  have hrole2 : jsOrStr (some role) "user" = role := by
    simp [jsOrStr, hrole]
  simp only [generateToken] at hbl hexp
  rw [hrole2] at hbl
  cases hl : u.lockUntil with
  | none =>
    simp [authenticateToken, generateToken, hbl, Nat.not_le.mpr hexp, hfind,
      hstatus, hl, hrole2]
  | some l =>
    have hnl : ¬(now2 < l) := by
      intro hcon
      simp [isLocked, hl, hcon] at hlock
    simp [authenticateToken, generateToken, hbl, Nat.not_le.mpr hexp, hfind,
      hstatus, hl, hnl, hrole2]

/-- Witness for mint_verify_round_trip: sampleUser, a token minted at
time 0 and verified at time 1, round-trips id 1, the sample email and
the user role. -/
theorem mint_verify_round_trip_witness :
    (authenticateToken emptyState [sampleUser]
        (some (generateToken 1 "alice@example.com" (some "user") 0 7)) 1).1 =
      AuthResult.admitted
        { id := 1, email := "alice@example.com", role := "user", tokenId := 7,
          fullName := sampleUser.fullName,
          profileImageUrl := sampleUser.profileImageUrl } := by
  exact mint_verify_round_trip emptyState [sampleUser] 1 7 0 1
    "alice@example.com" "user" sampleUser (by decide) (by decide) (by decide)
    (by decide) (by decide) (by decide)

/-- Modelled from the spec for comparison (refinement): the validity
condition the spec states for a refresh token — its signature verifies
under the refresh secret and its unique id exists in the owning user
document's persisted refresh-token list in an entry that is not marked
revoked and whose expiry has not passed. -/
def specRefreshValid (u : UserDoc) (t : Token) (now : Nat) : Bool :=
  t.secret == refreshSecret &&
    u.refreshTokens.any (fun e =>
      e.jti == t.jti && e.isRevoked == false && decide (now < e.expiresAt))

/-- A refresh token for sampleUser with jti 11, issued at 0. -/
def sampleRefreshTok : Token :=
  { id := 1
    email := "alice@example.com"
    role := none
    tokenType := TokenType.refresh
    jti := 11
    iat := 0
    exp := 604800000
    secret := refreshSecret }

/-- A process state whose in-memory refresh map holds jti 11 for
sampleUser. -/
def stWithRefresh11 : AuthState :=
  { tokenBlacklist := []
    refreshTokens :=
      [(11, { userId := 1, email := "alice@example.com", createdAt := 0,
              lastUsed := 0 })] }

/-- sampleUser with the persisted descriptor for jti 11 marked
revoked. -/
def userRevoked11 : UserDoc :=
  { sampleUser with
      refreshTokens :=
        [{ tokenHash := "h11", jti := 11, expiresAt := 604800000,
           isRevoked := true }] }

/-- C1 counterexample: the endpoint mints a new pair for a refresh
token whose persisted descriptor in the owning user document is marked
revoked — the persisted active-token list is not what the endpoint
consults, so validity is not the iff the claim states. -/
theorem refresh_mint_ignores_persisted_list :
    findById [userRevoked11] 1 = some userRevoked11 ∧
    isMintedR (refreshAccessToken stWithRefresh11 [userRevoked11]
        (some sampleRefreshTok) 1000 21 22).1 = true ∧
    specRefreshValid userRevoked11 sampleRefreshTok 1000 = false := by
  refine ⟨by decide, by decide, by decide⟩

/-- C1 amended: the refresh endpoint mints a new pair iff the presented
token is not blacklisted, its signature verifies under the refresh
secret, it is unexpired, its type is refresh, its jti is present in the
in-memory refresh-token map, and the subject user exists with an active
(or empty) status; the persisted per-user refresh-token list, its
revoked flags and its entry expiries are never consulted (the database
argument enters only through the subject lookup). -/
theorem refresh_mint_characterization (st : AuthState) (db : List UserDoc)
    (t : Token) (now ja jr : Nat) :
    isMintedR (refreshAccessToken st db (some t) now ja jr).1 =
      (!(isTokenBlacklisted st t) && t.secret == refreshSecret
        && decide (now < t.exp) && t.tokenType == TokenType.refresh
        && (mapGet st.refreshTokens t.jti).isSome
        && (match findById db t.id with
            | none => false
            | some u => u.status == "" || u.status == "active")) := by
  cases hb : isTokenBlacklisted st t with
  | true => simp [refreshAccessToken, isMintedR, hb]
  | false =>
  cases hsec : t.secret == refreshSecret with
  | false =>
    have hbne : (t.secret != refreshSecret) = true := by
      simp [bne, hsec]
    simp [refreshAccessToken, isMintedR, hb, hbne, hsec]
  | true =>
  have hbne : (t.secret != refreshSecret) = false := by
    simp [bne, hsec]
  by_cases hexp : t.exp ≤ now
  · have hd : decide (now < t.exp) = false := by
      simp [Nat.not_lt.mpr hexp]
    simp [refreshAccessToken, isMintedR, hb, hbne, hexp, hd]
  · have hd : decide (now < t.exp) = true := by
      simp [Nat.lt_of_not_le hexp]
    cases hty : t.tokenType == TokenType.refresh with
    | false =>
      have htyb : (t.tokenType != TokenType.refresh) = true := by
        simp [bne, hty]
      simp [refreshAccessToken, isMintedR, hb, hbne, hexp, hd, htyb, hty]
    | true =>
    have htyb : (t.tokenType != TokenType.refresh) = false := by
      simp [bne, hty]
    cases hmg : mapGet st.refreshTokens t.jti with
    | none =>
      simp [refreshAccessToken, isMintedR, hb, hbne, hexp, hd, htyb, hty,
        hsec, hmg]
    | some info =>
    cases hf : findById db t.id with
    | none =>
      simp [refreshAccessToken, isMintedR, hb, hbne, hexp, hd, htyb, hty,
        hsec, hmg, hf]
    | some u =>
      cases hs : (u.status != "" && u.status != "active") with
      | true =>
        have : (u.status == "" || u.status == "active") = false := by
          simp only [Bool.and_eq_true, bne_iff_ne] at hs
          simp [hs.1, hs.2]
        simp [refreshAccessToken, isMintedR, hb, hbne, hexp, hd, htyb, hty,
          hsec, hmg, hf, hs, this]
      | false =>
        have : (u.status == "" || u.status == "active") = true := by
          rcases Bool.and_eq_false_iff.mp hs with h | h <;>
            simp only [bne, Bool.not_eq_false', beq_iff_eq] at h <;>
            simp [h]
        simp [refreshAccessToken, isMintedR, hb, hbne, hexp, hd, htyb, hty,
          hsec, hmg, hf, hs, this]

/-- sampleUser with the persisted descriptor for jti 11 still active. -/
def userActive11 : UserDoc :=
  { sampleUser with
      refreshTokens :=
        [{ tokenHash := "h11", jti := 11, expiresAt := 604800000,
           isRevoked := false }] }

/-- C2: the code contradicts the claim. logout-all-devices (and
likewise changing the password) marks every persisted refresh-token
descriptor revoked and reports success, yet a refresh token issued
before the operation still mints a new pair at the refresh endpoint
with status 200, because the endpoint consults only the process-local
in-memory jti map, which neither operation touches. -/
theorem logout_all_leaves_refresh_usable :
    (logoutAllDevices [userActive11] 1).1 = 200 ∧
    ((logoutAllDevices [userActive11] 1).2.all
      (fun u => u.refreshTokens.all (fun e => e.isRevoked))) = true ∧
    isMintedR (refreshAccessToken stWithRefresh11
        (logoutAllDevices [userActive11] 1).2
        (some sampleRefreshTok) 1000 31 32).1 = true ∧
    refreshHttpStatus (refreshAccessToken stWithRefresh11
        (logoutAllDevices [userActive11] 1).2
        (some sampleRefreshTok) 1000 31 32).1 = 200 ∧
    (changePassword [userActive11] 1 "Passw0rdHash" "NewPassHash").1 = 200 ∧
    ((changePassword [userActive11] 1 "Passw0rdHash" "NewPassHash").2.all
      (fun u => u.refreshTokens.all (fun e => e.isRevoked))) = true ∧
    isMintedR (refreshAccessToken stWithRefresh11
        (changePassword [userActive11] 1 "Passw0rdHash" "NewPassHash").2
        (some sampleRefreshTok) 1000 31 32).1 = true := by
  refine ⟨by decide, by decide, by decide, by decide, by decide, by decide,
    by decide⟩

/-- C4: once a refresh token has been used successfully at the refresh
endpoint, presenting the very same token again answers the revoked
outcome with status 401 — the used token is blacklisted (and its jti
deleted from the map) as part of the rotation, whatever the later
request's clock or fresh jti arguments are. -/
theorem refresh_rotation_revokes_old_token (st : AuthState)
    (db : List UserDoc) (t : Token) (n1 ja jr n2 ja2 jr2 : Nat)
    (h : isMintedR (refreshAccessToken st db (some t) n1 ja jr).1 = true) :
    (refreshAccessToken ((refreshAccessToken st db (some t) n1 ja jr).2) db
        (some t) n2 ja2 jr2).1 = RefreshResult.revokedTok ∧
    refreshHttpStatus RefreshResult.revokedTok = 401 := by
  refine ⟨?_, rfl⟩
  have hb2 : isTokenBlacklisted st t = false := by
    cases hx : isTokenBlacklisted st t
    · rfl
    · simp [refreshAccessToken, hx, isMintedR] at h
  have hnotmem : t ∉ st.tokenBlacklist := by
    intro hmem
    simp [isTokenBlacklisted, hmem] at hb2
  have hbne2 : (t.secret != refreshSecret) = false := by
    cases hx : (t.secret != refreshSecret)
    · rfl
    · simp [refreshAccessToken, hb2, hx, isMintedR] at h
  have hexp : ¬(t.exp ≤ n1) := by
    intro hx
    simp [refreshAccessToken, hb2, hbne2, hx, isMintedR] at h
  have hty2 : (t.tokenType != TokenType.refresh) = false := by
    cases hx : (t.tokenType != TokenType.refresh)
    · rfl
    · simp [refreshAccessToken, hb2, hbne2, hexp, hx, isMintedR] at h
  cases hmg : mapGet st.refreshTokens t.jti with
  | none =>
    simp [refreshAccessToken, hb2, hbne2, hexp, hty2, hmg, isMintedR] at h
  | some info =>
  cases hf : findById db t.id with
  | none =>
    simp [refreshAccessToken, hb2, hbne2, hexp, hty2, hmg, hf,
      isMintedR] at h
  | some u =>
  cases hs : (u.status != "" && u.status != "active") with
  | true =>
    simp [refreshAccessToken, hb2, hbne2, hexp, hty2, hmg, hf, hs,
      isMintedR] at h
  | false =>
    have hblEq : ((refreshAccessToken st db (some t) n1 ja jr).2).tokenBlacklist
        = blacklistInsert st.tokenBlacklist t := by
      simp only [refreshAccessToken, hb2, hbne2, hexp, hty2, hmg, hf, hs,
        Bool.false_eq_true, if_false, if_neg hexp, Option.isNone_some,
        generateRefreshToken, blacklistToken]
      split <;> rfl
    have hbl2 : isTokenBlacklisted
        ((refreshAccessToken st db (some t) n1 ja jr).2) t = true := by
      simp [isTokenBlacklisted, hblEq, mem_blacklistInsert _ _ hnotmem]
    generalize hg : (refreshAccessToken st db (some t) n1 ja jr).2 = stX
      at hbl2 ⊢
    simp [refreshAccessToken, hbl2]

/-- Witness for refresh_rotation_revokes_old_token: a concrete rotation
for sampleRefreshTok, then a replay, which is rejected as revoked. -/
theorem refresh_rotation_revokes_old_token_witness :
    (refreshAccessToken ((refreshAccessToken stWithRefresh11 [sampleUser]
        (some sampleRefreshTok) 1000 21 22).2) [sampleUser]
        (some sampleRefreshTok) 2000 23 24).1 = RefreshResult.revokedTok := by
  exact (refresh_rotation_revokes_old_token stWithRefresh11 [sampleUser]
    sampleRefreshTok 1000 21 22 2000 23 24 (by decide)).1

/-- A wrong-password login attempt on an unlocked active account
records the failure through incLoginAttempts and reports the stale
remaining count. -/
theorem loginUser_wrong (st : AuthState) (v : UserDoc) (em pw : String)
    (t ja jr : Nat)
    (hemail : strToLower em = v.email)
    (hstatus : v.status = "active")
    (hnl : isLocked v t = false)
    (hpw : (pw == v.password) = false) :
    loginUser [v] st em pw t ja jr =
      (LoginResult.wrongPassword (attemptsRemaining v),
       [incLoginAttempts v t], st) := by
  have hfind : findLoginUser [v] em = some v := by
    simp [findLoginUser, List.find?, hemail, hstatus]
  have hid : (incLoginAttempts v t)._id = v._id := by
    unfold incLoginAttempts
    cases v.lockUntil with
    | none => dsimp; split <;> rfl
    | some l =>
      dsimp
      split
      · rfl
      · split <;> rfl
  simp [loginUser, hfind, hstatus, hnl, comparePassword, hpw, updateUser, hid]

/-- A failure recorded below the configured maximum only increments
the counter. -/
theorem inc_below (u : UserDoc) (t : Nat)
    (hl : u.lockUntil = none)
    (hlt : u.loginAttempts + 1 < u.maxLoginAttempts) :
    incLoginAttempts u t = { u with loginAttempts := u.loginAttempts + 1 } := by
  have hd : decide (u.loginAttempts + 1 ≥ u.maxLoginAttempts) = false :=
    decide_eq_false (by omega)
  simp [incLoginAttempts, hl, hd]

/-- The failure that reaches the configured maximum also sets the
lock. -/
theorem inc_reach (u : UserDoc) (t : Nat)
    (hl : u.lockUntil = none)
    (hge : u.loginAttempts + 1 ≥ u.maxLoginAttempts) :
    incLoginAttempts u t =
      { u with loginAttempts := u.loginAttempts + 1,
               lockUntil := some (t + u.lockTime) } := by
  have hd : decide (u.loginAttempts + 1 ≥ u.maxLoginAttempts) = true :=
    decide_eq_true hge
  simp [incLoginAttempts, hl, hd, isLocked]

/-- A login attempt on a locked account is rejected with the remaining
lock time, whatever the password. -/
theorem loginUser_lockedOut (st : AuthState) (v : UserDoc) (em pw : String)
    (t ja jr : Nat)
    (hemail : strToLower em = v.email)
    (hstatus : v.status = "active")
    (hl : isLocked v t = true) :
    loginUser [v] st em pw t ja jr =
      (LoginResult.lockedOut (ceilMinutes (v.lockUntil.getD 0) t), [v], st) := by
  have hfind : findLoginUser [v] em = some v := by
    simp [findLoginUser, List.find?, hemail, hstatus]
  simp [loginUser, hfind, hstatus, hl]

/-- A correct-password login on an unlocked active account succeeds,
resets the lockout bookkeeping and appends the new refresh
descriptor. -/
theorem loginUser_correct (st : AuthState) (v : UserDoc) (em pw : String)
    (t ja jr : Nat)
    (hemail : strToLower em = v.email)
    (hstatus : v.status = "active")
    (hnl : isLocked v t = false)
    (hpw : (pw == v.password) = true) :
    loginUser [v] st em pw t ja jr =
      (LoginResult.success (generateToken v._id v.email (some v.role) t ja)
          (generateRefreshToken st v._id v.email t jr).1,
       [addRefreshToken (resetLoginAttempts v) "sha256-of-refresh-token" jr
          (generateRefreshToken st v._id v.email t jr).1.exp],
       (generateRefreshToken st v._id v.email t jr).2) := by
  have hfind : findLoginUser [v] em = some v := by
    simp [findLoginUser, List.find?, hemail, hstatus]
  have hid : (addRefreshToken (resetLoginAttempts v) "sha256-of-refresh-token"
      jr (generateRefreshToken st v._id v.email t jr).1.exp)._id = v._id := rfl
  simp [loginUser, hfind, hstatus, hnl, comparePassword, hpw, updateUser, hid]

/-- The stored credential record right after the fifth consecutive
failure: five attempts and a lock until the given instant. -/
def lockedUser (u : UserDoc) (lu : Nat) : UserDoc :=
  { u with loginAttempts := 5, lockUntil := some lu }

/-- C3: starting from a fresh active account with the default maximum
of five attempts, five consecutive wrong-password logins each answer
401; after exactly the fifth the stored record is locked until the
fifth instant plus the lockout duration; the next login attempt, even
with the correct password, answers the locked response 423 and leaves
the record unchanged; once the lock instant has passed, the correct
password mints a token pair and the stored failure counter is reset to
zero with the lock cleared; and after only four failures the correct
password still succeeds, so the lock arises at exactly the maximum. -/
theorem lockout_after_max_failures
    (st : AuthState) (u : UserDoc) (w : String)
    (t1 t2 t3 t4 t5 t6 t7 s ja jr : Nat)
    (hstatus : u.status = "active")
    (hattempts : u.loginAttempts = 0)
    (hlock : u.lockUntil = none)
    (hmax : u.maxLoginAttempts = 5)
    (hemail : strToLower u.email = u.email)
    (hw : (w == u.password) = false)
    (h6 : t6 < t5 + u.lockTime)
    (h7 : t5 + u.lockTime ≤ t7) :
    loginHttpStatus (loginUser [u] st u.email w t1 ja jr).1 = 401 ∧
    loginHttpStatus (loginUser (loginStepDb st u.email w t1 ja jr [u])
      st u.email w t2 ja jr).1 = 401 ∧
    loginHttpStatus (loginUser (loginStepDb st u.email w t2 ja jr
      (loginStepDb st u.email w t1 ja jr [u])) st u.email w t3 ja jr).1 = 401 ∧
    loginHttpStatus (loginUser (loginStepDb st u.email w t3 ja jr
      (loginStepDb st u.email w t2 ja jr
        (loginStepDb st u.email w t1 ja jr [u]))) st u.email w t4 ja jr).1
      = 401 ∧
    loginHttpStatus (loginUser (loginStepDb st u.email w t4 ja jr
      (loginStepDb st u.email w t3 ja jr
        (loginStepDb st u.email w t2 ja jr
          (loginStepDb st u.email w t1 ja jr [u])))) st u.email w t5 ja jr).1
      = 401 ∧
    (loginStepDb st u.email w t5 ja jr
      (loginStepDb st u.email w t4 ja jr
        (loginStepDb st u.email w t3 ja jr
          (loginStepDb st u.email w t2 ja jr
            (loginStepDb st u.email w t1 ja jr [u])))))
      = [lockedUser u (t5 + u.lockTime)] ∧
    (loginUser [lockedUser u (t5 + u.lockTime)] st u.email u.password t6 ja
        jr).1 = LoginResult.lockedOut (ceilMinutes (t5 + u.lockTime) t6) ∧
    loginHttpStatus (loginUser [lockedUser u (t5 + u.lockTime)] st u.email u.password t6 ja
        jr).1 = 423 ∧
    (loginUser [lockedUser u (t5 + u.lockTime)] st u.email u.password t6 ja
        jr).2.1 = [lockedUser u (t5 + u.lockTime)] ∧
    isMintedL (loginUser [lockedUser u (t5 + u.lockTime)] st u.email u.password t7 ja
        jr).1 = true ∧
    ((loginUser [lockedUser u (t5 + u.lockTime)] st u.email u.password t7 ja
        jr).2.1.head?.map (fun v => (v.loginAttempts, v.lockUntil)))
      = some (0, none) ∧
    isMintedL (loginUser (loginStepDb st u.email w t4 ja jr
      (loginStepDb st u.email w t3 ja jr
        (loginStepDb st u.email w t2 ja jr
          (loginStepDb st u.email w t1 ja jr [u])))) st u.email u.password s
        ja jr).1 = true := by
  have hnl0 : isLocked u t1 = false := by simp [isLocked, hlock]
  have e1 := loginUser_wrong st u u.email w t1 ja jr hemail hstatus hnl0 hw
  have i1 : incLoginAttempts u t1
      = { u with loginAttempts := u.loginAttempts + 1 } :=
    inc_below u t1 hlock (by omega)
  have d1 : loginStepDb st u.email w t1 ja jr [u]
      = [{ u with loginAttempts := u.loginAttempts + 1 }] := by
    simp only [loginStepDb, e1, i1]
  have hnl1 : isLocked { u with loginAttempts := u.loginAttempts + 1 } t2
      = false := by simp [isLocked, hlock]
  have e2 := loginUser_wrong st { u with loginAttempts := u.loginAttempts + 1 }
    u.email w t2 ja jr hemail hstatus hnl1 hw
  have i2 : incLoginAttempts { u with loginAttempts := u.loginAttempts + 1 } t2
      = { u with loginAttempts := u.loginAttempts + 1 + 1 } :=
    inc_below _ t2 hlock (by show u.loginAttempts + 1 + 1 < u.maxLoginAttempts; omega)
  have d2 : loginStepDb st u.email w t2 ja jr
        [{ u with loginAttempts := u.loginAttempts + 1 }]
      = [{ u with loginAttempts := u.loginAttempts + 1 + 1 }] := by
    simp only [loginStepDb, e2, i2]
  have hnl2 : isLocked { u with loginAttempts := u.loginAttempts + 1 + 1 } t3
      = false := by simp [isLocked, hlock]
  have e3 := loginUser_wrong st
    { u with loginAttempts := u.loginAttempts + 1 + 1 }
    u.email w t3 ja jr hemail hstatus hnl2 hw
  have i3 : incLoginAttempts
        { u with loginAttempts := u.loginAttempts + 1 + 1 } t3
      = { u with loginAttempts := u.loginAttempts + 1 + 1 + 1 } :=
    inc_below _ t3 hlock
      (by show u.loginAttempts + 1 + 1 + 1 < u.maxLoginAttempts; omega)
  have d3 : loginStepDb st u.email w t3 ja jr
        [{ u with loginAttempts := u.loginAttempts + 1 + 1 }]
      = [{ u with loginAttempts := u.loginAttempts + 1 + 1 + 1 }] := by
    simp only [loginStepDb, e3, i3]
  have hnl3 : isLocked { u with loginAttempts := u.loginAttempts + 1 + 1 + 1 }
      t4 = false := by simp [isLocked, hlock]
  have e4 := loginUser_wrong st
    { u with loginAttempts := u.loginAttempts + 1 + 1 + 1 }
    u.email w t4 ja jr hemail hstatus hnl3 hw
  have i4 : incLoginAttempts
        { u with loginAttempts := u.loginAttempts + 1 + 1 + 1 } t4
      = { u with loginAttempts := u.loginAttempts + 1 + 1 + 1 + 1 } :=
    inc_below _ t4 hlock
      (by show u.loginAttempts + 1 + 1 + 1 + 1 < u.maxLoginAttempts; omega)
  have d4 : loginStepDb st u.email w t4 ja jr
        [{ u with loginAttempts := u.loginAttempts + 1 + 1 + 1 }]
      = [{ u with loginAttempts := u.loginAttempts + 1 + 1 + 1 + 1 }] := by
    simp only [loginStepDb, e4, i4]
  have hnl4 : isLocked
      { u with loginAttempts := u.loginAttempts + 1 + 1 + 1 + 1 } t5
      = false := by simp [isLocked, hlock]
  have e5 := loginUser_wrong st
    { u with loginAttempts := u.loginAttempts + 1 + 1 + 1 + 1 }
    u.email w t5 ja jr hemail hstatus hnl4 hw
  have i5 : incLoginAttempts
        { u with loginAttempts := u.loginAttempts + 1 + 1 + 1 + 1 } t5
      = { u with loginAttempts := u.loginAttempts + 1 + 1 + 1 + 1 + 1, lockUntil := some (t5 + u.lockTime) } :=
    inc_reach _ t5 hlock
      (by show u.loginAttempts + 1 + 1 + 1 + 1 + 1 ≥ u.maxLoginAttempts; omega)
  have d5 : loginStepDb st u.email w t5 ja jr
        [{ u with loginAttempts := u.loginAttempts + 1 + 1 + 1 + 1 }]
      = [lockedUser u (t5 + u.lockTime)] := by
    simp only [loginStepDb, e5, i5]
    simp [lockedUser, hattempts]
  have hl6 : isLocked (lockedUser u (t5 + u.lockTime)) t6 = true := by
    simp [isLocked, lockedUser, h6]
  have e6 := loginUser_lockedOut st (lockedUser u (t5 + u.lockTime))
    u.email u.password t6 ja jr hemail hstatus hl6
  have hnl7 : isLocked (lockedUser u (t5 + u.lockTime)) t7 = false := by
    simp [isLocked, lockedUser]
    omega
  have e7 := loginUser_correct st (lockedUser u (t5 + u.lockTime))
    u.email u.password t7 ja jr hemail hstatus hnl7 (beq_self_eq_true _)
  have hnlS : isLocked
      { u with loginAttempts := u.loginAttempts + 1 + 1 + 1 + 1 } s
      = false := by simp [isLocked, hlock]
  have eS := loginUser_correct st
    { u with loginAttempts := u.loginAttempts + 1 + 1 + 1 + 1 }
    u.email u.password s ja jr hemail hstatus hnlS (beq_self_eq_true _)
  refine ⟨by rw [e1]; rfl,
          by rw [d1, e2]; rfl,
          by rw [d1, d2, e3]; rfl,
          by rw [d1, d2, d3, e4]; rfl,
          by rw [d1, d2, d3, d4, e5]; rfl,
          by rw [d1, d2, d3, d4, d5],
          by rw [e6]; rfl,
          by rw [e6]; rfl,
          by rw [e6],
          by rw [e7]; rfl,
          by rw [e7]; rfl,
          by rw [d1, d2, d3, d4, eS]; rfl⟩

/-- Witness for lockout_after_max_failures: concrete times and
sampleUser; the locked-out attempt at time 1000 and the successful
reset login at 1800005. -/
theorem lockout_after_max_failures_witness :
    (loginUser [lockedUser sampleUser (5 + sampleUser.lockTime)] emptyState
        sampleUser.email sampleUser.password 1000 71 72).1
      = LoginResult.lockedOut (ceilMinutes (5 + sampleUser.lockTime) 1000) ∧
    isMintedL (loginUser [lockedUser sampleUser (5 + sampleUser.lockTime)]
        emptyState sampleUser.email sampleUser.password 1800005 71 72).1
      = true := by
  have h := lockout_after_max_failures emptyState sampleUser "wrong"
    1 2 3 4 5 1000 1800005 999 71 72 rfl rfl rfl rfl (by decide) (by decide)
    (by decide) (by decide)
  exact ⟨h.2.2.2.2.2.2.1, h.2.2.2.2.2.2.2.2.2.1⟩

end ExpenseTracker
